import Mathlib

/-!
Verification of the yamdb review-platform backend: shallow embedding of the
role model, the permission policies, the entity deletion semantics, the
rating aggregation, the profile-update endpoint and the confirmation-code
authentication flow, translated from src/api/models.py, src/api/permissions.py
and src/api/views.py.
-/

namespace Yamdb

/-! ## Role model (src/api/models.py, class User) -/

/-- Role value constants from User.UserRoles (src/api/models.py lines 25-31):
the stored role field is the first element of each text choice. -/
def UserRoles.USER : String := "user"

/-- Role value of a moderator, from User.UserRoles.MODERATOR. -/
def UserRoles.MODERATOR : String := "moderator"

/-- Role value of an administrator, from User.UserRoles.ADMIN. -/
def UserRoles.ADMIN : String := "admin"

/-- The request user as the permission layer sees it: primary key, the
Django is_authenticated and is_staff flags, and the stored role string
(src/api/models.py lines 39-43). An anonymous request user is modelled with
is_authenticated = false. -/
structure UserRec where
  id : Nat
  is_authenticated : Bool
  is_staff : Bool
  role : String
  deriving DecidableEq, Repr

/-- User.moderator property (src/api/models.py lines 47-49):
self.role == self.UserRoles.MODERATOR. -/
def UserRec.moderator (u : UserRec) : Bool :=
  u.role == UserRoles.MODERATOR

/-- User.admin property (src/api/models.py lines 51-53):
self.role == self.UserRoles.ADMIN. -/
def UserRec.admin (u : UserRec) : Bool :=
  u.role == UserRoles.ADMIN

/-! ## Permission policies (src/api/permissions.py) -/

/-- rest_framework permissions.SAFE_METHODS. -/
def SAFE_METHODS : List String := ["GET", "HEAD", "OPTIONS"]

/-- Whether a request method is one of the safe (read-only) methods. -/
def isSafeMethod (m : String) : Bool :=
  SAFE_METHODS.contains m

/-- IsAdmin.has_permission (src/api/permissions.py lines 4-14). The Python
body returns None when the user is not authenticated, which DRF treats as a
denial; the decision is modelled by its truthiness. -/
def IsAdmin.has_permission (u : UserRec) : Bool :=
  if u.is_authenticated then u.is_staff || u.admin else false

/-- IsAdminOrReadOnly.has_permission (src/api/permissions.py lines 17-23):
safe methods are allowed outright, otherwise the same staff-or-admin check as
IsAdmin, with the implicit None on an unauthenticated user treated as denial. -/
def IsAdminOrReadOnly.has_permission (method : String) (u : UserRec) : Bool :=
  if isSafeMethod method then true
  else if u.is_authenticated then u.is_staff || u.admin else false

/-- rest_framework IsAuthenticatedOrReadOnly.has_permission: safe method or
authenticated user. -/
def IsAuthenticatedOrReadOnly.has_permission (method : String) (u : UserRec) : Bool :=
  isSafeMethod method || u.is_authenticated

/-- IsAuthorOrStaffOrReadOnly.has_object_permission
(src/api/permissions.py lines 26-31):
method in SAFE_METHODS or obj.author == request.user or request.user.admin
or request.user.moderator. The comparison obj.author == request.user holds
exactly for an authenticated request user whose id is the author id, since an
anonymous request user equals no stored user row. -/
def IsAuthorOrStaffOrReadOnly.has_object_permission
    (method : String) (u : UserRec) (authorId : Nat) : Bool :=
  isSafeMethod method || (u.is_authenticated && u.id == authorId)
    || u.admin || u.moderator

/-- Object-level decision for the Review and Comment endpoints, which install
IsAuthenticatedOrReadOnly together with IsAuthorOrStaffOrReadOnly
(src/api/views.py lines 140 and 154): DRF grants the request on a specific
instance only when every has_permission and every has_object_permission
passes. -/
def reviewObjectDecision (method : String) (u : UserRec) (authorId : Nat) : Bool :=
  IsAuthenticatedOrReadOnly.has_permission method u
    && IsAuthorOrStaffOrReadOnly.has_object_permission method u authorId

/-! ## Theorems on the role model and the permission policies -/

/-- C1 counterexample: an authenticated user carrying the staff flag but the
plain user role, who is not the author, is denied a mutating action on a
Review or Comment instance, although the claim (mutation allowed for the
administer capability, which includes the staff flag) predicts it is allowed.
The claimed decision rule is stated as the quantified proposition being
negated. -/
theorem C1_counterexample :
    ¬ (∀ (m : String) (u : UserRec) (authorId : Nat),
        isSafeMethod m = false →
        (reviewObjectDecision m u authorId = true ↔
          ((u.is_authenticated = true ∧ u.id = authorId) ∨
            u.moderator = true ∨ u.admin = true ∨ u.is_staff = true))) := by
  intro h
  have hc := (h "PATCH" ⟨2, true, true, UserRoles.USER⟩ 1 (by decide)).mpr
    (Or.inr (Or.inr (Or.inr rfl)))
  exact absurd hc (by decide)

/-- C1 (amended): the combined Review and Comment object-level decision allows
every safe action unconditionally, and allows a mutating action exactly when
the subject is authenticated and is the author of the instance, or holds the
moderator role, or holds the admin role; the staff flag on its own grants
nothing here, and every other subject, authenticated or anonymous, is denied. -/
theorem C1_review_object_decision (m : String) (u : UserRec) (authorId : Nat) :
    reviewObjectDecision m u authorId = true ↔
      (isSafeMethod m = true ∨
        (u.is_authenticated = true ∧
          (u.id = authorId ∨ u.role = UserRoles.MODERATOR ∨ u.role = UserRoles.ADMIN))) := by
  simp only [reviewObjectDecision, IsAuthenticatedOrReadOnly.has_permission,
    IsAuthorOrStaffOrReadOnly.has_object_permission, UserRec.admin, UserRec.moderator,
    Bool.and_eq_true, Bool.or_eq_true, beq_iff_eq]
  tauto

/-- C2 counterexample: a user whose stored role is the admin role constant has
the moderator capability false, although the claim states the capability is
true for every user whose role is admin. -/
theorem C2_counterexample :
    (⟨1, true, false, UserRoles.ADMIN⟩ : UserRec).role = UserRoles.ADMIN ∧
    UserRec.moderator ⟨1, true, false, UserRoles.ADMIN⟩ = false := by
  exact ⟨rfl, by decide⟩

/-- C2 (amended): the moderator capability is a pure function of the stored
role which is true exactly for a user whose role is the moderator role, and
false otherwise, the admin role included. -/
theorem C2_moderator_iff_role (u : UserRec) :
    (UserRec.moderator u = true ↔ u.role = UserRoles.MODERATOR) ∧
    (∀ v : UserRec, u.role = v.role → UserRec.moderator u = UserRec.moderator v) := by
  constructor
  · simp [UserRec.moderator]
  · intro v h
    simp [UserRec.moderator, h]

/-- Witness for C2_moderator_iff_role at a concrete moderator user and a
second user sharing the role. -/
theorem C2_witness :
    (UserRec.moderator ⟨1, true, false, UserRoles.MODERATOR⟩ = true ↔
      (⟨1, true, false, UserRoles.MODERATOR⟩ : UserRec).role = UserRoles.MODERATOR) ∧
    UserRec.moderator ⟨1, true, false, UserRoles.MODERATOR⟩ =
      UserRec.moderator ⟨2, false, true, UserRoles.MODERATOR⟩ :=
  ⟨(C2_moderator_iff_role ⟨1, true, false, UserRoles.MODERATOR⟩).1,
   (C2_moderator_iff_role ⟨1, true, false, UserRoles.MODERATOR⟩).2
     ⟨2, false, true, UserRoles.MODERATOR⟩ rfl⟩

/-- C9: on every authenticated subject and every mutating method the
IsAdminOrReadOnly decision coincides with the IsAdmin decision, and both
allow exactly when the subject carries the staff flag or the admin role;
hence the two policies can differ only on safe methods or unauthenticated
subjects. -/
theorem C9_admin_policies_agree_on_mutation (m : String) (u : UserRec)
    (hauth : u.is_authenticated = true) (hm : isSafeMethod m = false) :
    IsAdminOrReadOnly.has_permission m u = IsAdmin.has_permission u ∧
    IsAdmin.has_permission u = (u.is_staff || u.admin) := by
  simp [IsAdmin.has_permission, IsAdminOrReadOnly.has_permission, hauth, hm]

/-- Witness for C9_admin_policies_agree_on_mutation at a concrete admin user
and the DELETE method. -/
theorem C9_witness :
    (⟨1, true, false, UserRoles.ADMIN⟩ : UserRec).is_authenticated = true ∧
    isSafeMethod "DELETE" = false ∧
    (IsAdminOrReadOnly.has_permission "DELETE" ⟨1, true, false, UserRoles.ADMIN⟩ =
        IsAdmin.has_permission ⟨1, true, false, UserRoles.ADMIN⟩ ∧
      IsAdmin.has_permission ⟨1, true, false, UserRoles.ADMIN⟩ =
        ((⟨1, true, false, UserRoles.ADMIN⟩ : UserRec).is_staff
          || UserRec.admin ⟨1, true, false, UserRoles.ADMIN⟩)) :=
  ⟨rfl, by decide,
   C9_admin_policies_agree_on_mutation "DELETE" ⟨1, true, false, UserRoles.ADMIN⟩
     rfl (by decide)⟩

/-- C10: the moderator and admin capabilities are never both true, since both
are derived from the single role field by comparison against the distinct
constants moderator and admin. -/
theorem C10_capabilities_exclusive (u : UserRec) :
    (UserRec.moderator u && UserRec.admin u) = false := by
  by_cases h : u.role = UserRoles.MODERATOR
  · simp [UserRec.moderator, UserRec.admin, h, UserRoles.MODERATOR, UserRoles.ADMIN]
  · simp [UserRec.moderator, h]

/-! ## Year validation (src/api/models.py, validate_year) -/

/-- validate_year (src/api/models.py lines 10-17): raises a ValidationError
when value > date.today().year + 10 or value < -40000, otherwise returns
normally. The current year is passed explicitly as todayYear. -/
def validate_year (todayYear : Int) (value : Int) : Except String Unit :=
  if value > todayYear + 10 ∨ value < -40000 then
    .error "the year is outside the valid date range"
  else
    .ok ()

/-- C6: for every current year and every integer year value, validate_year
accepts exactly when -40000 <= value <= todayYear + 10, and rejects with a
validation error otherwise. -/
theorem C6_validate_year_iff (todayYear value : Int) :
    validate_year todayYear value = .ok () ↔
      (-40000 ≤ value ∧ value ≤ todayYear + 10) := by
  constructor
  · intro h
    by_cases hc : value > todayYear + 10 ∨ value < -40000
    · simp [validate_year, hc] at h
    · push_neg at hc
      omega
  · intro h
    have hc : ¬ (value > todayYear + 10 ∨ value < -40000) := by omega
    simp [validate_year, hc]

/-! ## Rating aggregation (src/api/views.py, TitleViewSet.queryset) -/

/-- A Review row as the rating aggregation and the deletion semantics see it:
primary key, the Title it belongs to (Review.title, models.py lines 120-122),
the author and the integer score. -/
structure ReviewRec where
  id : Nat
  titleId : Nat
  authorId : Nat
  score : Int
  deriving DecidableEq, Repr

/-- The multiset of scores of the reviews referencing a given title, i.e. the
rows the reverse relation reviews__score joins for that title. -/
def reviewScores (reviews : List ReviewRec) (t : Nat) : List Int :=
  (reviews.filter (fun r => r.titleId == t)).map (fun r => r.score)

/-- TitleViewSet.queryset rating annotation (src/api/views.py lines 56-59):
Avg over reviews__score, evaluated by the query itself on the review rows
present at query time; SQL AVG over zero rows is NULL, modelled as none. -/
def titleRating (reviews : List ReviewRec) (t : Nat) : Option ℚ :=
  let scores := reviewScores reviews t
  if scores.isEmpty then none
  else some ((scores.map (fun z => (z : ℚ))).sum / scores.length)

/-- Deletion of a single review row, as issued by a DELETE on the review
endpoint; the annotation recomputes on the remaining rows. -/
def deleteReview (reviews : List ReviewRec) (rid : Nat) : List ReviewRec :=
  reviews.filter (fun r => r.id ≠ rid)

/-- C5: the rating read from the Title collection is none exactly when the
title has no reviews, and whenever it is some q, q is the arithmetic mean of
the current scores, i.e. q multiplied by the number of reviews equals the sum
of their scores; since titleRating is a function of the review rows passed to
it, the value is recomputed from the current rows at every query. -/
theorem C5_rating_is_mean (reviews : List ReviewRec) (t : Nat) :
    (titleRating reviews t = none ↔ reviewScores reviews t = []) ∧
    (∀ q : ℚ, titleRating reviews t = some q →
      q * ((reviewScores reviews t).length : ℚ) =
        ((reviewScores reviews t).map (fun z => (z : ℚ))).sum) := by
  constructor
  · constructor
    · intro h
      by_cases he : (reviewScores reviews t).isEmpty
      · exact List.isEmpty_iff.mp he
      · simp [titleRating, he] at h
    · intro h
      simp [titleRating, h]
  · intro q hq
    by_cases he : (reviewScores reviews t).isEmpty
    · simp [titleRating, he] at hq
    · simp only [titleRating, he, if_false] at hq
      have hlen : ((reviewScores reviews t).length : ℚ) ≠ 0 := by
        have : reviewScores reviews t ≠ [] := by
          intro hnil
          simp [hnil] at he
        have hpos : 0 < (reviewScores reviews t).length :=
          List.length_pos.mpr this
        exact_mod_cast Nat.pos_iff_ne_zero.mp hpos
      have hq' : q = ((reviewScores reviews t).map (fun z => (z : ℚ))).sum /
          ((reviewScores reviews t).length : ℚ) := by
        exact_mod_cast (Option.some.inj hq).symm
      rw [hq']
      field_simp

/-- A concrete review table: title 1 carries scores 8 and 10, title 2 carries
none. -/
def exReviews : List ReviewRec :=
  [⟨1, 1, 1, 8⟩, ⟨2, 1, 2, 10⟩]

/-- Witness for C5_rating_is_mean: scores 8 and 10 give rating 9, deleting the
review with score 10 gives rating 8 on recomputation, a title with no reviews
reports none, and the mean identity holds at the concrete table. -/
theorem C5_witness :
    titleRating exReviews 1 = some 9 ∧
    titleRating (deleteReview exReviews 2) 1 = some 8 ∧
    titleRating exReviews 2 = none ∧
    (9 : ℚ) * ((reviewScores exReviews 1).length : ℚ) =
      ((reviewScores exReviews 1).map (fun z => (z : ℚ))).sum := by
  refine ⟨?_, ?_, ?_, ?_⟩
  · show titleRating exReviews 1 = some 9
    norm_num [titleRating, reviewScores, exReviews]
  · norm_num [titleRating, reviewScores, deleteReview, exReviews]
  · exact (C5_rating_is_mean exReviews 2).1.mpr rfl
  · refine (C5_rating_is_mean exReviews 1).2 9 ?_
    norm_num [titleRating, reviewScores, exReviews]

/-! ## Deletion semantics (src/api/models.py, on_delete declarations) -/

/-- A Title row: primary key and the nullable Category reference
(Title.category, src/api/models.py lines 103-109). -/
structure TitleRec where
  id : Nat
  category : Option Nat
  deriving DecidableEq, Repr

/-- A Comment row: primary key and the Review it belongs to
(Comment.review, src/api/models.py lines 141-143). -/
structure CommentRec where
  id : Nat
  reviewId : Nat
  deriving DecidableEq, Repr

/-- The persistent store restricted to the rows the deletion claims touch.
Categories are carried by primary key. -/
structure Store where
  categories : List Nat
  titles : List TitleRec
  reviews : List ReviewRec
  comments : List CommentRec
  deriving DecidableEq, Repr

/-- Deleting a Category row: Title.category declares on_delete=SET_NULL
(src/api/models.py line 106), so every Title referencing the deleted Category
keeps its row with the reference cleared to null. -/
def deleteCategory (s : Store) (c : Nat) : Store :=
  { s with
    categories := s.categories.filter (fun x => x ≠ c),
    titles := s.titles.map (fun t =>
      if t.category = some c then { t with category := none } else t) }

/-- Deleting a Title row: Review.title declares on_delete=CASCADE
(src/api/models.py line 121) and Comment.review declares on_delete=CASCADE
(line 142), so the delete removes the reviews of the title and, transitively,
the comments of those reviews. -/
def deleteTitle (s : Store) (tid : Nat) : Store :=
  let deadReviews := (s.reviews.filter (fun r => r.titleId == tid)).map (fun r => r.id)
  { s with
    titles := s.titles.filter (fun t => t.id ≠ tid),
    reviews := s.reviews.filter (fun r => r.titleId ≠ tid),
    comments := s.comments.filter (fun cm => ¬ deadReviews.contains cm.reviewId) }

/-- C7: deleting a Category keeps every Title row — a Title referencing the
deleted Category survives with its reference set to null and any other Title
survives unchanged — while deleting a Title removes every Review of that
Title and every Comment whose Review belongs to that Title. -/
theorem C7_delete_semantics (s : Store) (c tid : Nat) :
    (∀ t ∈ s.titles, t.category = some c →
      ({ t with category := none } : TitleRec) ∈ (deleteCategory s c).titles) ∧
    (∀ t ∈ s.titles, t.category ≠ some c → t ∈ (deleteCategory s c).titles) ∧
    (∀ r ∈ s.reviews, r.titleId = tid → r ∉ (deleteTitle s tid).reviews) ∧
    (∀ cm ∈ s.comments,
      (∃ r ∈ s.reviews, r.id = cm.reviewId ∧ r.titleId = tid) →
        cm ∉ (deleteTitle s tid).comments) := by
  refine ⟨?_, ?_, ?_, ?_⟩
  · intro t ht hc
    simp only [deleteCategory, List.mem_map]
    exact ⟨t, ht, by simp [hc]⟩
  · intro t ht hc
    simp only [deleteCategory, List.mem_map]
    exact ⟨t, ht, by simp [hc]⟩
  · intro r hr hrt
    simp [deleteTitle, List.mem_filter, hrt]
  · rintro cm hcm ⟨r, hr, hrid, hrt⟩ hmem
    simp only [deleteTitle, List.mem_filter, decide_eq_true_eq] at hmem
    exact hmem.2 (by
      simp only [List.contains_eq_any_beq, List.any_eq_true, List.mem_map,
        List.mem_filter, beq_iff_eq]
      exact ⟨r.id, ⟨r, ⟨hr, by simp [hrt]⟩, rfl⟩, hrid.symm⟩)

/-- A concrete store: category 1 is referenced by title 1, title 1 carries
review 1 with comment 1, title 2 carries review 2 with comment 2. -/
def exStore : Store :=
  { categories := [1],
    titles := [⟨1, some 1⟩, ⟨2, none⟩],
    reviews := [⟨1, 1, 1, 8⟩, ⟨2, 2, 1, 5⟩],
    comments := [⟨1, 1⟩, ⟨2, 2⟩] }

/-- Witness for C7_delete_semantics at the concrete store: title 1 survives
category deletion with a cleared reference, title 2 survives unchanged, and
deleting title 1 removes review 1 and comment 1. -/
theorem C7_witness :
    (⟨1, none⟩ : TitleRec) ∈ (deleteCategory exStore 1).titles ∧
    (⟨2, none⟩ : TitleRec) ∈ (deleteCategory exStore 1).titles ∧
    (⟨1, 1, 1, 8⟩ : ReviewRec) ∉ (deleteTitle exStore 1).reviews ∧
    (⟨1, 1⟩ : CommentRec) ∉ (deleteTitle exStore 1).comments :=
  ⟨(C7_delete_semantics exStore 1 1).1 ⟨1, some 1⟩ (by decide) rfl,
   (C7_delete_semantics exStore 1 1).2.1 ⟨2, none⟩ (by decide) (by decide),
   (C7_delete_semantics exStore 1 1).2.2.1 ⟨1, 1, 1, 8⟩ (by decide) rfl,
   (C7_delete_semantics exStore 1 1).2.2.2 ⟨1, 1⟩ (by decide)
     ⟨⟨1, 1, 1, 8⟩, by decide, rfl, rfl⟩⟩

/-! ## Profile update endpoint (src/api/views.py, UserViewSet.me) -/

/-- A stored user profile with the writable fields the profile serializer
exposes. UserSerializer is declared in src/api/serializers.py, which is not
among the sources; its writable fields are modelled after the User model
fields of src/api/models.py (username, email, role, bio). -/
structure ProfileUser where
  username : String
  email : String
  role : String
  bio : String
  deriving DecidableEq, Repr

/-- A partial-update payload: each field the client may supply, absent fields
left untouched by a partial serializer. -/
structure MePatchData where
  username : Option String
  email : Option String
  role : Option String
  bio : Option String
  deriving DecidableEq, Repr

/-- DRF ModelSerializer.save on a partial update: the keyword arguments passed
to save are merged over the validated payload, overriding it, and the merged
fields overwrite the instance fields; absent payload fields keep the instance
value. -/
def serializerSaveMe (current : ProfileUser) (data : MePatchData)
    (emailKw roleKw : String) : ProfileUser :=
  { username := data.username.getD current.username,
    bio := data.bio.getD current.bio,
    email := emailKw,
    role := roleKw }

/-- UserViewSet.me PATCH branch (src/api/views.py lines 80-91): the serializer
is bound to the request user with partial=True and saved with
email=instance.email and role=instance.role, pinning both to their current
values. -/
def me_patch (u : ProfileUser) (data : MePatchData) : ProfileUser :=
  serializerSaveMe u data u.email u.role

/-- C8: a PATCH to the me endpoint leaves the email and role of the request
user unchanged for every payload, including one that supplies new values for
them, while the other writable fields take the payload value when supplied
and keep the stored value otherwise. -/
theorem C8_me_preserves_email_and_role (u : ProfileUser) (d : MePatchData) :
    (me_patch u d).email = u.email ∧
    (me_patch u d).role = u.role ∧
    (me_patch u d).username = d.username.getD u.username ∧
    (me_patch u d).bio = d.bio.getD u.bio :=
  ⟨rfl, rfl, rfl, rfl⟩

/-! ## Confirmation-code flow (src/api/views.py, ObtainingConfirmationCodeView
and TokenView) -/

/-- A stored auth user row: username, unique email (src/api/models.py line
34), the stored confirmation code (line 33) and the Django is_active flag. -/
structure AuthUser where
  username : String
  email : String
  confirmation_code : String
  is_active : Bool
  deriving DecidableEq, Repr

/-- Django QuerySet.get_or_create called with plain keyword arguments and no
defaults: every keyword is part of the lookup, and when no row matches all of
them a new row is created from the same keywords. The unique constraints on
email (src/api/models.py line 34) and on the AbstractUser username make the
insert fail with an IntegrityError when another row already holds the email
or the username. -/
def get_or_create (store : List AuthUser) (email username code : String)
    (active : Bool) : Except String (List AuthUser) :=
  if store.any (fun u => u.email == email && u.username == username
      && u.confirmation_code == code && u.is_active == active) then
    Except.ok store
  else if store.any (fun u => u.email == email || u.username == username) then
    Except.error "IntegrityError: duplicate user"
  else
    Except.ok (store ++ [⟨username, email, code, active⟩])

/-- ObtainingConfirmationCodeView.post (src/api/views.py lines 100-119): a
fresh random code is generated (passed here as newCode) and get_or_create is
invoked with email, username=str(email), confirmation_code=newCode and
is_active=False, all as lookup keywords; on success the code is mailed out.
Mail transport is an external collaborator and is not modelled. -/
def obtainConfirmationCode (store : List AuthUser) (email newCode : String) :
    Except String (List AuthUser) :=
  get_or_create store email email newCode false

/-- Modelled from the spec: TokenSerializer is declared in
src/api/serializers.py, which is not among the sources. Per the spec, a
presentation (email, code) is valid exactly when the stored confirmation code
of the user with that email equals the presented code, and a mismatch is
rejected; validation is pure and changes no stored state. -/
def tokenSerializerValid (store : List AuthUser) (email code : String) : Bool :=
  store.any (fun u => u.email == email && u.confirmation_code == code)

/-- The simplejwt access token minted through RefreshToken.for_user, modelled
as an opaque string derived from the user identity. -/
def accessTokenFor (email : String) : String :=
  "access:" ++ email

/-- TokenView.post (src/api/views.py lines 122-135): validates the payload
with TokenSerializer, fetches the user by email (404 when absent), calls
user.save() — which rewrites the row with unchanged fields, since none is
assigned — and responds with a single field holding only the access token
string of a freshly minted refresh token. is_active is never assigned. -/
def tokenView_post (store : List AuthUser) (email code : String) :
    Except String String × List AuthUser :=
  if tokenSerializerValid store email code then
    match store.find? (fun u => u.email == email) with
    | none => (Except.error "404 user not found", store)
    | some u => (Except.ok (accessTokenFor u.email), store)
  else
    (Except.error "400 invalid confirmation code", store)

/-- The pending user created by the first confirmation-code request for
a@b.c. -/
def pendingA : AuthUser :=
  ⟨"a@b.c", "a@b.c", "code1", false⟩

/-- C3: at the failing input — a second confirmation-code request for an
email already holding a pending user — the code does not overwrite the stored
confirmation code: the get_or_create lookup includes the fresh code, misses,
and the attempted insert dies on the unique constraint, leaving the first
code as the one the exchange still accepts while the newly issued code is
rejected. -/
theorem C3_reissue_fails_and_old_code_stays :
    obtainConfirmationCode [] "a@b.c" "code1" = Except.ok [pendingA] ∧
    obtainConfirmationCode [pendingA] "a@b.c" "code2" =
      Except.error "IntegrityError: duplicate user" ∧
    tokenSerializerValid [pendingA] "a@b.c" "code1" = true ∧
    tokenSerializerValid [pendingA] "a@b.c" "code2" = false :=
  ⟨rfl, rfl, rfl, rfl⟩

/-- C4 counterexample: a pending user presents the matching code; the claim
states the user is then marked active, but the exchange returns the store
unchanged and its only user is still inactive. -/
theorem C4_counterexample :
    tokenSerializerValid [pendingA] "a@b.c" "code1" = true ∧
    (tokenView_post [pendingA] "a@b.c" "code1").2 = [pendingA] ∧
    pendingA.is_active = false :=
  ⟨rfl, rfl, rfl⟩

/-- C4 (amended): when the presented code matches the stored code for the
email, the exchange succeeds and returns a single short-lived access token
bound to that user, with the stored state unchanged — in particular the user
is not marked active and no refresh token appears in the response; when the
code does not match, the request is rejected, no token is issued, and the
stored state is unchanged. -/
theorem C4_token_exchange (store : List AuthUser) (email code : String) :
    (tokenSerializerValid store email code = true →
      (tokenView_post store email code).1 = Except.ok (accessTokenFor email) ∧
      (tokenView_post store email code).2 = store) ∧
    (tokenSerializerValid store email code = false →
      (∀ tok : String, (tokenView_post store email code).1 ≠ Except.ok tok) ∧
      (tokenView_post store email code).2 = store) := by
  constructor
  · intro hv
    have hex : ∃ u ∈ store,
        (u.email == email && u.confirmation_code == code) = true := by
      simpa [tokenSerializerValid, List.any_eq_true] using hv
    obtain ⟨u, hu, hcond⟩ := hex
    have hmail : u.email = email := by
      simp only [Bool.and_eq_true, beq_iff_eq] at hcond
      exact hcond.1
    have hsome : (store.find? (fun w => w.email == email)).isSome := by
      rw [List.find?_isSome]
      exact ⟨u, hu, by simp [hmail]⟩
    obtain ⟨v, hvfind⟩ := Option.isSome_iff_exists.mp hsome
    have hveq : v.email = email := by
      have := List.find?_some hvfind
      simpa [beq_iff_eq] using this
    refine ⟨?_, ?_⟩
    · simp [tokenView_post, hv, hvfind, hveq]
    · simp [tokenView_post, hv, hvfind]
  · intro hv
    refine ⟨?_, ?_⟩
    · intro tok
      simp [tokenView_post, hv]
    · simp [tokenView_post, hv]

/-- Witness for C4_token_exchange at the pending user: the matching code
yields exactly the access token with the store unchanged, and a wrong code
yields no token with the store unchanged. -/
theorem C4_witness :
    tokenSerializerValid [pendingA] "a@b.c" "code1" = true ∧
    ((tokenView_post [pendingA] "a@b.c" "code1").1 =
        Except.ok (accessTokenFor "a@b.c") ∧
      (tokenView_post [pendingA] "a@b.c" "code1").2 = [pendingA]) ∧
    tokenSerializerValid [pendingA] "a@b.c" "bad" = false ∧
    ((∀ tok : String,
        (tokenView_post [pendingA] "a@b.c" "bad").1 ≠ Except.ok tok) ∧
      (tokenView_post [pendingA] "a@b.c" "bad").2 = [pendingA]) :=
  ⟨rfl, (C4_token_exchange [pendingA] "a@b.c" "code1").1 rfl,
   rfl, (C4_token_exchange [pendingA] "a@b.c" "bad").2 rfl⟩

end Yamdb
